import Mathlib

/-!
Shallow embedding of the Diabetes_Prediction repository (`src/app.py`) for
verification of its natural-language specification.

The two logic-bearing functions are embedded:
* `get_clinical_interpretation` (app.py lines 9-71): the Interpreter, a pure
  classification of five clinical signals into statement buckets and
  risk-factor tags;
* `create_pdf_report` (app.py lines 75-150): the ReportCompiler, rendering a
  fixed multi-section document from the metrics, prediction, statements and
  risk factors.  Documents are modelled as the ordered sequence of rendered
  items (cells, multi-cells, rules, spacing, font/colour changes), which is
  exactly the information the sequential FPDF calls lay down; the PDF binary
  serialisation performed by the external `fpdf` library sits below this
  abstraction.
Finally the submission flow (app.py lines 231-273) is embedded to reason
about the confidence display and the error-handling paths.

Integer form fields (age, pulse_rate, systolic_bp, diastolic_bp, glucose,
height, weight) are modelled as `Int`; `bmi`, the one float field, as `ℚ`;
the hypertensive flag as the `Int` 0/1 the caller passes (the code compares
it to `1`).
-/

namespace DiabetesPrediction

/-- The ten fields of `input_data_dict` (app.py lines 223-228), in their
insertion order. -/
structure PatientMetrics where
  age : Int
  pulse_rate : Int
  systolic_bp : Int
  diastolic_bp : Int
  glucose : Int
  height : Int
  weight : Int
  bmi : ℚ
  hypertensive : Int
  diagnostic_label : Int
deriving Repr, DecidableEq

/-- One interpretation statement.  Each constructor stands for one of the
literal message templates appended to `interpretations` in
`get_clinical_interpretation` (app.py lines 17-61) and carries the observed
value(s) embedded in that message. -/
inductive Interp where
  | glucoseDiabetic (g : Int)
  | glucosePrediabetic (g : Int)
  | glucoseNormal (g : Int)
  | bmiObese (b : ℚ)
  | bmiOverweight (b : ℚ)
  | bmiNormal (b : ℚ)
  | bpStage2 (s d : Int)
  | bpStage1 (s d : Int)
  | bpNormal (s d : Int)
  | ageOver45 (a : Int)
deriving Repr, DecidableEq

/-- Block 1 of `get_clinical_interpretation` (app.py lines 14-26): the
glucose classification, returning the statement and risk factors this block
appends. -/
def glucoseBlock (glucose : Int) : List Interp × List String :=
  if 126 ≤ glucose then
    ([Interp.glucoseDiabetic glucose], ["High Glucose Level"])
  else if 100 ≤ glucose ∧ glucose ≤ 125 then
    ([Interp.glucosePrediabetic glucose], ["Prediabetic Glucose Level"])
  else
    ([Interp.glucoseNormal glucose], [])

/-- Block 2 of `get_clinical_interpretation` (app.py lines 28-40): the BMI
classification. -/
def bmiBlock (bmi : ℚ) : List Interp × List String :=
  if 30 ≤ bmi then
    ([Interp.bmiObese bmi], ["Obesity (High BMI)"])
  else if 25 ≤ bmi ∧ bmi < 30 then
    ([Interp.bmiOverweight bmi], ["Overweight"])
  else
    ([Interp.bmiNormal bmi], [])

/-- Block 3 of `get_clinical_interpretation` (app.py lines 42-55): the
blood-pressure classification. -/
def bpBlock (systolic diastolic : Int) : List Interp × List String :=
  if 140 ≤ systolic ∨ 90 ≤ diastolic then
    ([Interp.bpStage2 systolic diastolic], ["High Blood Pressure"])
  else if (130 ≤ systolic ∧ systolic ≤ 139) ∨ (80 ≤ diastolic ∧ diastolic ≤ 89) then
    ([Interp.bpStage1 systolic diastolic], ["Elevated Blood Pressure"])
  else
    ([Interp.bpNormal systolic diastolic], [])

/-- Block 4 of `get_clinical_interpretation` (app.py lines 57-62): the age
check, which only contributes when `age >= 45`. -/
def ageBlock (age : Int) : List Interp × List String :=
  if 45 ≤ age then ([Interp.ageOver45 age], ["Age over 45"]) else ([], [])

/-- Block 5 of `get_clinical_interpretation` (app.py lines 64-66): the
hypertensive flag contributes a risk factor only, never a statement. -/
def hyperBlock (hypertensive : Int) : List String :=
  if hypertensive = 1 then ["Existing Hypertension Diagnosis"] else []

/-- The sentinel risk factor appended when no other risk factor was
collected (app.py line 69). -/
def no_risk_sentinel : String :=
  "No major risk factors identified from the provided data."

/-- The Interpreter (app.py lines 9-71): the five blocks run in order,
their statements and risk factors accumulate by successive `append`s, and
an empty risk-factor list is replaced by the single sentinel. -/
def get_clinical_interpretation (p : PatientMetrics) : List Interp × List String :=
  let risks :=
    (glucoseBlock p.glucose).2 ++ (bmiBlock p.bmi).2 ++
      (bpBlock p.systolic_bp p.diastolic_bp).2 ++ (ageBlock p.age).2 ++
      hyperBlock p.hypertensive
  ((glucoseBlock p.glucose).1 ++ (bmiBlock p.bmi).1 ++
      (bpBlock p.systolic_bp p.diastolic_bp).1 ++ (ageBlock p.age).1,
   if risks = [] then [no_risk_sentinel] else risks)

/-- The statement sequence produced for a metrics input. -/
def interpretations (p : PatientMetrics) : List Interp :=
  (get_clinical_interpretation p).1

/-- The risk-factor sequence produced for a metrics input. -/
def risk_factors (p : PatientMetrics) : List String :=
  (get_clinical_interpretation p).2

/-- The raw risk-factor accumulation before the sentinel check. -/
def risks_raw (p : PatientMetrics) : List String :=
  (glucoseBlock p.glucose).2 ++ (bmiBlock p.bmi).2 ++
    (bpBlock p.systolic_bp p.diastolic_bp).2 ++ (ageBlock p.age).2 ++
    hyperBlock p.hypertensive

/-- The single glucose statement as a function of the glucose value. -/
def glucoseStmt (glucose : Int) : Interp :=
  if 126 ≤ glucose then .glucoseDiabetic glucose
  else if 100 ≤ glucose ∧ glucose ≤ 125 then .glucosePrediabetic glucose
  else .glucoseNormal glucose

/-- The single BMI statement as a function of the BMI value. -/
def bmiStmt (bmi : ℚ) : Interp :=
  if 30 ≤ bmi then .bmiObese bmi
  else if 25 ≤ bmi ∧ bmi < 30 then .bmiOverweight bmi
  else .bmiNormal bmi

/-- The single blood-pressure statement as a function of the two readings. -/
def bpStmt (systolic diastolic : Int) : Interp :=
  if 140 ≤ systolic ∨ 90 ≤ diastolic then .bpStage2 systolic diastolic
  else if (130 ≤ systolic ∧ systolic ≤ 139) ∨ (80 ≤ diastolic ∧ diastolic ≤ 89) then
    .bpStage1 systolic diastolic
  else .bpNormal systolic diastolic

/-! ### The ReportCompiler (`create_pdf_report`, app.py lines 75-150)

The document is modelled as the ordered list of items the sequential FPDF
calls lay down.  Values rendered with `str(...)` keep their typed payload
(`PyVal`); the confidence display keeps its `ConfDisplay` payload, whose
`pct` constructor stands for the two-decimal percentage rendering of the
carried probability. -/

/-- A Python value placed in a patient-information row (`str(value)`,
app.py line 103). -/
inductive PyVal where
  | int (n : Int)
  | rat (q : ℚ)
deriving Repr, DecidableEq

/-- The confidence display passed to the report: `pct q` stands for `q`
formatted as a percentage with two decimal places (Python `f"{q:.2%}"`,
app.py lines 242 and 246), `na` for the string `"N/A"`. -/
inductive ConfDisplay where
  | pct (q : ℚ)
  | na
deriving Repr, DecidableEq

/-- One rendered document item, one per FPDF call in `create_pdf_report`. -/
inductive PdfItem where
  | setFont (family style : String) (size : Nat)
  | cell (text : String)
  | cellVal (v : PyVal)
  | cellConf (c : ConfDisplay)
  | interpCell (i : Interp)
  | multiCell (text : String)
  | hline
  | vspace (h : Nat)
  | setTextColor (r g b : Nat)
deriving Repr, DecidableEq

/-- Label humanisation `str(key).replace('_', ' ').title()`
(app.py line 101). -/
def display_key (k : String) : String :=
  String.intercalate " " (((k.replace "_" " ").splitOn " ").map String.capitalize)

/-- The rows of the patient-information table: the items of
`input_data_dict` (app.py lines 223-228) in insertion order, iterated at
app.py line 100. -/
def patientRows (p : PatientMetrics) : List (String × PyVal) :=
  [("age", .int p.age), ("pulse_rate", .int p.pulse_rate),
   ("systolic_bp", .int p.systolic_bp), ("diastolic_bp", .int p.diastolic_bp),
   ("glucose", .int p.glucose), ("height", .int p.height),
   ("weight", .int p.weight), ("bmi", .rat p.bmi),
   ("hypertensive", .int p.hypertensive), ("diagnostic_label", .int p.diagnostic_label)]

/-- The constant disclaimer paragraph (app.py lines 146-148). -/
def disclaimer_text : String :=
  "Disclaimer: This is a prediction generated by a machine learning model and should not be considered a substitute for a professional medical diagnosis. Please consult a healthcare provider for any health concerns."

/-- The ReportCompiler (app.py lines 75-150), laying down the document
items in the order of the FPDF calls.  The generation timestamp read at
app.py line 90 is the `now` argument. -/
def create_pdf_report (patient_data : PatientMetrics) (prediction_result : String)
    (confidence : ConfDisplay) (interps : List Interp)
    (risk_factors : List String) (now : String) : List PdfItem :=
  [PdfItem.setFont "Arial" "B" 20,
   PdfItem.cell "Diabetes Prediction Report",
   PdfItem.vspace 10,
   PdfItem.setFont "Arial" "" 12,
   PdfItem.cell ("Report generated on: " ++ now),
   PdfItem.vspace 5,
   PdfItem.setFont "Arial" "B" 16,
   PdfItem.cell "Patient Information",
   PdfItem.hline,
   PdfItem.vspace 5,
   PdfItem.setFont "Arial" "" 12] ++
  (patientRows patient_data).flatMap
    (fun kv => [PdfItem.cell (display_key kv.1 ++ ":"), PdfItem.cellVal kv.2]) ++
  [PdfItem.vspace 10,
   PdfItem.setFont "Arial" "B" 16,
   PdfItem.cell "Prediction Result",
   PdfItem.hline,
   PdfItem.vspace 5,
   PdfItem.setFont "Arial" "B" 14] ++
  (if prediction_result = "Positive" then
     [PdfItem.setTextColor 220 53 69, PdfItem.cell "High Likelihood of Diabetes"]
   else
     [PdfItem.setTextColor 40 167 69, PdfItem.cell "Low Likelihood of Diabetes"]) ++
  [PdfItem.setTextColor 0 0 0,
   PdfItem.setFont "Arial" "" 12,
   PdfItem.cellConf confidence,
   PdfItem.vspace 5,
   PdfItem.setFont "Arial" "B" 16,
   PdfItem.cell "Clinical Interpretation",
   PdfItem.hline,
   PdfItem.vspace 5,
   PdfItem.setFont "Arial" "" 12] ++
  interps.flatMap (fun i => [PdfItem.interpCell i, PdfItem.vspace 2]) ++
  [PdfItem.setFont "Arial" "B" 12,
   PdfItem.cell "Primary Risk Factors Identified:",
   PdfItem.setFont "Arial" "" 12] ++
  risk_factors.map (fun f => PdfItem.multiCell ("- " ++ f)) ++
  [PdfItem.vspace 15,
   PdfItem.setFont "Arial" "I" 10,
   PdfItem.multiCell disclaimer_text]

/-! #### The seven sections of the document -/

/-- Section 1: Title (app.py lines 84-86). -/
def titleSection : List PdfItem :=
  [PdfItem.setFont "Arial" "B" 20,
   PdfItem.cell "Diabetes Prediction Report",
   PdfItem.vspace 10]

/-- Section 2: Metadata, the generation timestamp (app.py lines 89-91). -/
def metadataSection (now : String) : List PdfItem :=
  [PdfItem.setFont "Arial" "" 12,
   PdfItem.cell ("Report generated on: " ++ now),
   PdfItem.vspace 5]

/-- Section 3: Patient Information (app.py lines 94-104). -/
def patientInfoSection (p : PatientMetrics) : List PdfItem :=
  [PdfItem.setFont "Arial" "B" 16,
   PdfItem.cell "Patient Information",
   PdfItem.hline,
   PdfItem.vspace 5,
   PdfItem.setFont "Arial" "" 12] ++
  (patientRows p).flatMap
    (fun kv => [PdfItem.cell (display_key kv.1 ++ ":"), PdfItem.cellVal kv.2]) ++
  [PdfItem.vspace 10]

/-- Section 4: Prediction Result (app.py lines 107-123). -/
def predictionSection (prediction_result : String) (confidence : ConfDisplay) :
    List PdfItem :=
  [PdfItem.setFont "Arial" "B" 16,
   PdfItem.cell "Prediction Result",
   PdfItem.hline,
   PdfItem.vspace 5,
   PdfItem.setFont "Arial" "B" 14] ++
  (if prediction_result = "Positive" then
     [PdfItem.setTextColor 220 53 69, PdfItem.cell "High Likelihood of Diabetes"]
   else
     [PdfItem.setTextColor 40 167 69, PdfItem.cell "Low Likelihood of Diabetes"]) ++
  [PdfItem.setTextColor 0 0 0,
   PdfItem.setFont "Arial" "" 12,
   PdfItem.cellConf confidence,
   PdfItem.vspace 5]

/-- Section 5: Clinical Interpretation (app.py lines 126-134). -/
def clinicalSection (interps : List Interp) : List PdfItem :=
  [PdfItem.setFont "Arial" "B" 16,
   PdfItem.cell "Clinical Interpretation",
   PdfItem.hline,
   PdfItem.vspace 5,
   PdfItem.setFont "Arial" "" 12] ++
  interps.flatMap (fun i => [PdfItem.interpCell i, PdfItem.vspace 2])

/-- Section 6: Risk Factors (app.py lines 136-142). -/
def riskSection (risk_factors : List String) : List PdfItem :=
  [PdfItem.setFont "Arial" "B" 12,
   PdfItem.cell "Primary Risk Factors Identified:",
   PdfItem.setFont "Arial" "" 12] ++
  risk_factors.map (fun f => PdfItem.multiCell ("- " ++ f)) ++
  [PdfItem.vspace 15]

/-- Section 7: the constant Disclaimer (app.py lines 145-148); a closed
term, not a function of any patient data. -/
def disclaimerSection : List PdfItem :=
  [PdfItem.setFont "Arial" "I" 10,
   PdfItem.multiCell disclaimer_text]

/-- Everything the ReportCompiler lays down after the timestamp cell;
independent of the timestamp. -/
def afterTimestamp (patient_data : PatientMetrics) (prediction_result : String)
    (confidence : ConfDisplay) (interps : List Interp)
    (risk_factors : List String) : List PdfItem :=
  PdfItem.vspace 5 ::
    (patientInfoSection patient_data ++ predictionSection prediction_result confidence ++
      clinicalSection interps ++ riskSection risk_factors ++ disclaimerSection)

/-! ### The submission flow (app.py lines 217-273)

The `try` block runs the external model, derives the prediction text and the
confidence display, runs the Interpreter, and serialises the report through
the external `fpdf` library; any exception raised inside the block is caught
by the single `except` (app.py lines 272-273) which surfaces
`"An error occurred during prediction: {e}"`. -/

/-- Outcome of a step that may raise a Python exception. -/
inductive StepResult (α : Type) where
  | ok (a : α)
  | exc (msg : String)
deriving Repr

/-- What the submission handler leaves on screen: either the report display
(with the downloadable byte stream) or the error message of the `except`
handler. -/
inductive Display where
  | report (prediction_text : String) (confidence : ConfDisplay) (pdf_bytes : List Nat)
  | errorMessage (msg : String)
deriving Repr, DecidableEq

/-- `prediction_text` (app.py lines 243 and 247): label 1 is "Positive". -/
def prediction_text (prediction : Int) : String :=
  if prediction = 1 then "Positive" else "Negative"

/-- `confidence_score` (app.py lines 240-247): for label 1 the positive-class
probability, otherwise its complement, each to be rendered as a two-decimal
percentage; `na` when the model exposes no `predict_proba`. -/
def confidence_display (prediction : Int) (positive_class_proba : Option ℚ) :
    ConfDisplay :=
  if prediction = 1 then
    match positive_class_proba with
    | some p => .pct p
    | none => .na
  else
    match positive_class_proba with
    | some p => .pct (1 - p)
    | none => .na

/-- The body of the `try` block (app.py lines 231-273): `model_outcome` is
the external model call (label and optional positive-class probability);
`serialize` is the external `bytes(pdf.output())` serialisation of the
document laid down by `create_pdf_report`.  An exception from either
external step reaches the same `except` handler. -/
def run_submission (p : PatientMetrics) (model_outcome : StepResult (Int × Option ℚ))
    (serialize : List PdfItem → StepResult (List Nat)) (now : String) : Display :=
  match model_outcome with
  | .exc e => .errorMessage ("An error occurred during prediction: " ++ e)
  | .ok (prediction, proba) =>
      let ptext := prediction_text prediction
      let conf := confidence_display prediction proba
      let out := get_clinical_interpretation p
      match serialize (create_pdf_report p ptext conf out.1 out.2 now) with
      | .exc e => .errorMessage ("An error occurred during prediction: " ++ e)
      | .ok bs => .report ptext conf bs

/-! ### Structural lemmas about the Interpreter -/

theorem glucoseBlock_fst (g : Int) : (glucoseBlock g).1 = [glucoseStmt g] := by
  unfold glucoseBlock glucoseStmt; split_ifs <;> rfl

theorem bmiBlock_fst (b : ℚ) : (bmiBlock b).1 = [bmiStmt b] := by
  unfold bmiBlock bmiStmt; split_ifs <;> rfl

theorem bpBlock_fst (s d : Int) : (bpBlock s d).1 = [bpStmt s d] := by
  unfold bpBlock bpStmt; split_ifs <;> rfl

theorem interpretations_shape (p : PatientMetrics) :
    interpretations p =
      [glucoseStmt p.glucose, bmiStmt p.bmi, bpStmt p.systolic_bp p.diastolic_bp] ++
        (if 45 ≤ p.age then [Interp.ageOver45 p.age] else []) := by
  unfold interpretations get_clinical_interpretation ageBlock
  rw [glucoseBlock_fst, bmiBlock_fst, bpBlock_fst]
  split_ifs <;> rfl

theorem risk_factors_eq (p : PatientMetrics) :
    risk_factors p = if risks_raw p = [] then [no_risk_sentinel] else risks_raw p := rfl

theorem interpretations_getElem_zero (p : PatientMetrics) :
    (interpretations p)[0]? = some (glucoseStmt p.glucose) := by
  rw [interpretations_shape]; simp

theorem interpretations_getElem_one (p : PatientMetrics) :
    (interpretations p)[1]? = some (bmiStmt p.bmi) := by
  rw [interpretations_shape]; simp

theorem interpretations_getElem_two (p : PatientMetrics) :
    (interpretations p)[2]? = some (bpStmt p.systolic_bp p.diastolic_bp) := by
  rw [interpretations_shape]; simp

theorem mem_glucoseBlock_snd (g : Int) (x : String) :
    x ∈ (glucoseBlock g).2 ↔
      (x = "High Glucose Level" ∧ 126 ≤ g) ∨
      (x = "Prediabetic Glucose Level" ∧ ¬ 126 ≤ g ∧ 100 ≤ g ∧ g ≤ 125) := by
  unfold glucoseBlock; split_ifs <;> simp_all

theorem mem_bmiBlock_snd (b : ℚ) (x : String) :
    x ∈ (bmiBlock b).2 ↔
      (x = "Obesity (High BMI)" ∧ 30 ≤ b) ∨
      (x = "Overweight" ∧ ¬ 30 ≤ b ∧ 25 ≤ b ∧ b < 30) := by
  unfold bmiBlock; split_ifs <;> simp_all

theorem mem_bpBlock_snd (s d : Int) (x : String) :
    x ∈ (bpBlock s d).2 ↔
      (x = "High Blood Pressure" ∧ (140 ≤ s ∨ 90 ≤ d)) ∨
      (x = "Elevated Blood Pressure" ∧ ¬ (140 ≤ s ∨ 90 ≤ d) ∧
        ((130 ≤ s ∧ s ≤ 139) ∨ (80 ≤ d ∧ d ≤ 89))) := by
  unfold bpBlock; split_ifs <;> simp_all

theorem mem_ageBlock_snd (a : Int) (x : String) :
    x ∈ (ageBlock a).2 ↔ x = "Age over 45" ∧ 45 ≤ a := by
  unfold ageBlock; split_ifs <;> simp_all

theorem mem_hyperBlock (h : Int) (x : String) :
    x ∈ hyperBlock h ↔ x = "Existing Hypertension Diagnosis" ∧ h = 1 := by
  unfold hyperBlock; split_ifs <;> simp_all

/-- Characterisation of membership in the raw risk-factor accumulation. -/
theorem mem_risks_raw (p : PatientMetrics) (x : String) :
    x ∈ risks_raw p ↔
      (x = "High Glucose Level" ∧ 126 ≤ p.glucose) ∨
      (x = "Prediabetic Glucose Level" ∧ ¬ 126 ≤ p.glucose ∧ 100 ≤ p.glucose ∧ p.glucose ≤ 125) ∨
      (x = "Obesity (High BMI)" ∧ 30 ≤ p.bmi) ∨
      (x = "Overweight" ∧ ¬ 30 ≤ p.bmi ∧ 25 ≤ p.bmi ∧ p.bmi < 30) ∨
      (x = "High Blood Pressure" ∧ (140 ≤ p.systolic_bp ∨ 90 ≤ p.diastolic_bp)) ∨
      (x = "Elevated Blood Pressure" ∧ ¬ (140 ≤ p.systolic_bp ∨ 90 ≤ p.diastolic_bp) ∧
        ((130 ≤ p.systolic_bp ∧ p.systolic_bp ≤ 139) ∨ (80 ≤ p.diastolic_bp ∧ p.diastolic_bp ≤ 89))) ∨
      (x = "Age over 45" ∧ 45 ≤ p.age) ∨
      (x = "Existing Hypertension Diagnosis" ∧ p.hypertensive = 1) := by
  unfold risks_raw
  simp only [List.mem_append, mem_glucoseBlock_snd, mem_bmiBlock_snd, mem_bpBlock_snd,
    mem_ageBlock_snd, mem_hyperBlock, or_assoc]

theorem glucoseBlock_snd_nil (g : Int) : (glucoseBlock g).2 = [] ↔ g < 100 := by
  unfold glucoseBlock; split_ifs <;> simp <;> omega

theorem bmiBlock_snd_nil (b : ℚ) : (bmiBlock b).2 = [] ↔ b < 25 := by
  unfold bmiBlock
  split_ifs with h1 h2
  · simp; linarith
  · simp; linarith [h2.1]
  · simp
    by_contra hc
    push_neg at hc h1
    exact h2 ⟨hc, h1⟩

theorem bpBlock_snd_nil (s d : Int) :
    (bpBlock s d).2 = [] ↔ s < 130 ∧ d < 80 := by
  unfold bpBlock; split_ifs <;> simp <;> omega

theorem ageBlock_snd_nil (a : Int) : (ageBlock a).2 = [] ↔ a < 45 := by
  unfold ageBlock; split_ifs <;> simp <;> omega

theorem hyperBlock_nil (h : Int) : hyperBlock h = [] ↔ h ≠ 1 := by
  unfold hyperBlock; split_ifs <;> simp_all

/-- The raw accumulation is empty exactly when none of the five risk
conditions holds. -/
theorem risks_raw_eq_nil_iff (p : PatientMetrics) :
    risks_raw p = [] ↔
      p.glucose < 100 ∧ p.bmi < 25 ∧ p.systolic_bp < 130 ∧ p.diastolic_bp < 80 ∧
        p.age < 45 ∧ p.hypertensive ≠ 1 := by
  unfold risks_raw
  simp only [List.append_eq_nil, glucoseBlock_snd_nil, bmiBlock_snd_nil, bpBlock_snd_nil,
    ageBlock_snd_nil, hyperBlock_nil]
  tauto

theorem sentinel_not_mem_risks_raw (p : PatientMetrics) :
    no_risk_sentinel ∉ risks_raw p := by
  rw [mem_risks_raw]
  simp [no_risk_sentinel]

theorem risk_factors_ne_nil (p : PatientMetrics) : risk_factors p ≠ [] := by
  rw [risk_factors_eq]
  split_ifs with h
  · simp
  · exact h

theorem mem_risk_factors_of_ne_sentinel (p : PatientMetrics) (x : String)
    (hx : x ≠ no_risk_sentinel) : x ∈ risk_factors p ↔ x ∈ risks_raw p := by
  rw [risk_factors_eq]
  split_ifs with h
  · simp [hx, h]
  · rfl

theorem risk_factors_eq_sentinel_iff (p : PatientMetrics) :
    risk_factors p = [no_risk_sentinel] ↔ risks_raw p = [] := by
  rw [risk_factors_eq]
  split_ifs with h
  · simp [h]
  · constructor
    · intro hs
      exact absurd (hs ▸ List.mem_singleton_self no_risk_sentinel)
        (sentinel_not_mem_risks_raw p)
    · intro hs; exact absurd hs h

/-! #### Which risk factor appears for which inputs -/

theorem high_glucose_mem_iff (p : PatientMetrics) :
    "High Glucose Level" ∈ risk_factors p ↔ 126 ≤ p.glucose := by
  rw [mem_risk_factors_of_ne_sentinel _ _ (by decide), mem_risks_raw]
  simp

theorem prediabetic_mem_iff (p : PatientMetrics) :
    "Prediabetic Glucose Level" ∈ risk_factors p ↔
      100 ≤ p.glucose ∧ p.glucose ≤ 125 := by
  rw [mem_risk_factors_of_ne_sentinel _ _ (by decide), mem_risks_raw]
  simp
  omega

theorem obesity_mem_iff (p : PatientMetrics) :
    "Obesity (High BMI)" ∈ risk_factors p ↔ 30 ≤ p.bmi := by
  rw [mem_risk_factors_of_ne_sentinel _ _ (by decide), mem_risks_raw]
  simp

theorem overweight_mem_iff (p : PatientMetrics) :
    "Overweight" ∈ risk_factors p ↔ 25 ≤ p.bmi ∧ p.bmi < 30 := by
  rw [mem_risk_factors_of_ne_sentinel _ _ (by decide), mem_risks_raw]
  simp

theorem high_bp_mem_iff (p : PatientMetrics) :
    "High Blood Pressure" ∈ risk_factors p ↔
      140 ≤ p.systolic_bp ∨ 90 ≤ p.diastolic_bp := by
  rw [mem_risk_factors_of_ne_sentinel _ _ (by decide), mem_risks_raw]
  simp

theorem elevated_bp_mem_iff (p : PatientMetrics) :
    "Elevated Blood Pressure" ∈ risk_factors p ↔
      ¬ (140 ≤ p.systolic_bp ∨ 90 ≤ p.diastolic_bp) ∧
        ((130 ≤ p.systolic_bp ∧ p.systolic_bp ≤ 139) ∨
          (80 ≤ p.diastolic_bp ∧ p.diastolic_bp ≤ 89)) := by
  rw [mem_risk_factors_of_ne_sentinel _ _ (by decide), mem_risks_raw]
  simp

theorem age_mem_iff (p : PatientMetrics) :
    "Age over 45" ∈ risk_factors p ↔ 45 ≤ p.age := by
  rw [mem_risk_factors_of_ne_sentinel _ _ (by decide), mem_risks_raw]
  simp

theorem hyper_mem_iff (p : PatientMetrics) :
    "Existing Hypertension Diagnosis" ∈ risk_factors p ↔ p.hypertensive = 1 := by
  rw [mem_risk_factors_of_ne_sentinel _ _ (by decide), mem_risks_raw]
  simp

/-- When the hypertensive flag is set, its risk factor sits at the end of
the risk-factor list. -/
theorem risk_factors_getLast_hyper (p : PatientMetrics) (h : p.hypertensive = 1) :
    (risk_factors p).getLast? = some "Existing Hypertension Diagnosis" := by
  have hraw : risks_raw p =
      ((glucoseBlock p.glucose).2 ++ (bmiBlock p.bmi).2 ++
        (bpBlock p.systolic_bp p.diastolic_bp).2 ++ (ageBlock p.age).2) ++
        ["Existing Hypertension Diagnosis"] := by
    unfold risks_raw hyperBlock
    rw [if_pos h]
  rw [risk_factors_eq, hraw]
  rw [if_neg (by simp)]
  exact List.getLast?_concat _

/-! ### Structural lemmas about the ReportCompiler -/

theorem string_append_inj (s t₁ t₂ : String) (h : s ++ t₁ = s ++ t₂) : t₁ = t₂ := by
  have h2 := congrArg String.data h
  rw [String.data_append, String.data_append] at h2
  exact String.ext (List.append_cancel_left h2)

theorem create_pdf_report_sections (p : PatientMetrics) (r : String)
    (c : ConfDisplay) (i : List Interp) (f : List String) (now : String) :
    create_pdf_report p r c i f now =
      titleSection ++ metadataSection now ++ patientInfoSection p ++
        predictionSection r c ++ clinicalSection i ++ riskSection f ++
        disclaimerSection := by
  simp [create_pdf_report, titleSection, metadataSection, patientInfoSection,
    predictionSection, clinicalSection, riskSection, disclaimerSection]

theorem create_pdf_report_timestamp_split (p : PatientMetrics) (r : String)
    (c : ConfDisplay) (i : List Interp) (f : List String) (now : String) :
    create_pdf_report p r c i f now =
      [PdfItem.setFont "Arial" "B" 20,
       PdfItem.cell "Diabetes Prediction Report",
       PdfItem.vspace 10,
       PdfItem.setFont "Arial" "" 12] ++
        PdfItem.cell ("Report generated on: " ++ now) :: afterTimestamp p r c i f := by
  simp [create_pdf_report, afterTimestamp, patientInfoSection, predictionSection,
    clinicalSection, riskSection, disclaimerSection]

/-- Unfolding of `run_submission` when the model call returned. -/
theorem run_submission_ok (p : PatientMetrics) (prediction : Int) (proba : Option ℚ)
    (serialize : List PdfItem → StepResult (List Nat)) (now : String) :
    run_submission p (.ok (prediction, proba)) serialize now =
      match serialize (create_pdf_report p (prediction_text prediction)
          (confidence_display prediction proba) (interpretations p)
          (risk_factors p) now) with
      | .exc e => .errorMessage ("An error occurred during prediction: " ++ e)
      | .ok bs =>
          .report (prediction_text prediction) (confidence_display prediction proba) bs := rfl

/-! ## Claims -/

/-- C1: For every metrics input the Interpreter classifies blood pressure
into exactly one bucket, Stage-2 taking precedence: if systolic >= 140 or
diastolic >= 90 it emits the Stage-2 statement and the risk factor
"High Blood Pressure"; otherwise if 130 <= systolic <= 139 or
80 <= diastolic <= 89 it emits the Stage-1 statement and the risk factor
"Elevated Blood Pressure"; otherwise (which, as the final conjunct proves,
is exactly systolic < 130 and diastolic < 80) it emits the normal statement
and no blood-pressure risk factor. -/
theorem C1_blood_pressure_buckets (p : PatientMetrics) :
    ((140 ≤ p.systolic_bp ∨ 90 ≤ p.diastolic_bp) →
      (interpretations p)[2]? = some (Interp.bpStage2 p.systolic_bp p.diastolic_bp) ∧
        "High Blood Pressure" ∈ risk_factors p) ∧
    (¬ (140 ≤ p.systolic_bp ∨ 90 ≤ p.diastolic_bp) →
      ((130 ≤ p.systolic_bp ∧ p.systolic_bp ≤ 139) ∨
        (80 ≤ p.diastolic_bp ∧ p.diastolic_bp ≤ 89)) →
      (interpretations p)[2]? = some (Interp.bpStage1 p.systolic_bp p.diastolic_bp) ∧
        "Elevated Blood Pressure" ∈ risk_factors p) ∧
    (p.systolic_bp < 130 ∧ p.diastolic_bp < 80 →
      (interpretations p)[2]? = some (Interp.bpNormal p.systolic_bp p.diastolic_bp) ∧
        "High Blood Pressure" ∉ risk_factors p ∧
        "Elevated Blood Pressure" ∉ risk_factors p) ∧
    (¬ (140 ≤ p.systolic_bp ∨ 90 ≤ p.diastolic_bp) →
      ¬ ((130 ≤ p.systolic_bp ∧ p.systolic_bp ≤ 139) ∨
          (80 ≤ p.diastolic_bp ∧ p.diastolic_bp ≤ 89)) →
      p.systolic_bp < 130 ∧ p.diastolic_bp < 80) := by
  refine ⟨fun h => ⟨?_, ?_⟩, fun h1 h2 => ⟨?_, ?_⟩, fun h => ⟨?_, ?_, ?_⟩,
    fun h1 h2 => by omega⟩
  · rw [interpretations_getElem_two]
    unfold bpStmt
    rw [if_pos h]
  · exact (high_bp_mem_iff p).mpr h
  · rw [interpretations_getElem_two]
    unfold bpStmt
    rw [if_neg h1, if_pos h2]
  · exact (elevated_bp_mem_iff p).mpr ⟨h1, h2⟩
  · rw [interpretations_getElem_two]
    unfold bpStmt
    rw [if_neg (by omega), if_neg (by omega)]
  · rw [high_bp_mem_iff]; omega
  · rw [elevated_bp_mem_iff]; omega

/-- C1 witness: at systolic 140 / diastolic 70 the Stage-2 statement and
"High Blood Pressure" are emitted; at 135/70 Stage-1; at 120/70 normal with
no blood-pressure risk factor. -/
theorem C1_blood_pressure_buckets_witness :
    ((interpretations (PatientMetrics.mk 30 72 140 70 90 170 70 22 0 0))[2]? =
        some (Interp.bpStage2 140 70) ∧
      "High Blood Pressure" ∈ risk_factors (PatientMetrics.mk 30 72 140 70 90 170 70 22 0 0)) ∧
    ((interpretations (PatientMetrics.mk 30 72 135 70 90 170 70 22 0 0))[2]? =
        some (Interp.bpStage1 135 70) ∧
      "Elevated Blood Pressure" ∈ risk_factors (PatientMetrics.mk 30 72 135 70 90 170 70 22 0 0)) ∧
    ((interpretations (PatientMetrics.mk 30 72 120 70 90 170 70 22 0 0))[2]? =
        some (Interp.bpNormal 120 70) ∧
      "High Blood Pressure" ∉ risk_factors (PatientMetrics.mk 30 72 120 70 90 170 70 22 0 0) ∧
      "Elevated Blood Pressure" ∉ risk_factors (PatientMetrics.mk 30 72 120 70 90 170 70 22 0 0)) :=
  ⟨(C1_blood_pressure_buckets _).1 (by decide),
   (C1_blood_pressure_buckets _).2.1 (by decide) (by decide),
   (C1_blood_pressure_buckets _).2.2.1 (by decide)⟩

/-- C2: For every glucose value the Interpreter assigns exactly one glucose
bucket: below 100 the normal statement and no glucose risk factor; 100-125
the prediabetic statement plus "Prediabetic Glucose Level"; at or above 126
the diabetic statement plus "High Glucose Level"; the three ranges cover
every integer glucose value. -/
theorem C2_glucose_buckets (p : PatientMetrics) :
    (p.glucose < 100 →
      (interpretations p)[0]? = some (Interp.glucoseNormal p.glucose) ∧
        "High Glucose Level" ∉ risk_factors p ∧
        "Prediabetic Glucose Level" ∉ risk_factors p) ∧
    (100 ≤ p.glucose ∧ p.glucose ≤ 125 →
      (interpretations p)[0]? = some (Interp.glucosePrediabetic p.glucose) ∧
        "Prediabetic Glucose Level" ∈ risk_factors p) ∧
    (126 ≤ p.glucose →
      (interpretations p)[0]? = some (Interp.glucoseDiabetic p.glucose) ∧
        "High Glucose Level" ∈ risk_factors p) ∧
    (p.glucose < 100 ∨ (100 ≤ p.glucose ∧ p.glucose ≤ 125) ∨ 126 ≤ p.glucose) := by
  refine ⟨fun h => ⟨?_, ?_, ?_⟩, fun h => ⟨?_, ?_⟩, fun h => ⟨?_, ?_⟩, by omega⟩
  · rw [interpretations_getElem_zero]
    unfold glucoseStmt
    rw [if_neg (by omega), if_neg (by omega)]
  · rw [high_glucose_mem_iff]; omega
  · rw [prediabetic_mem_iff]; omega
  · rw [interpretations_getElem_zero]
    unfold glucoseStmt
    rw [if_neg (by omega), if_pos h]
  · exact (prediabetic_mem_iff p).mpr h
  · rw [interpretations_getElem_zero]
    unfold glucoseStmt
    rw [if_pos h]
  · exact (high_glucose_mem_iff p).mpr h

/-- C2 witness: the boundary glucose values 99, 100, 125 and 126 land in
the normal, prediabetic, prediabetic and diabetic buckets respectively. -/
theorem C2_glucose_buckets_witness :
    (interpretations (PatientMetrics.mk 30 72 110 70 99 170 70 22 0 0))[0]? =
        some (Interp.glucoseNormal 99) ∧
    ((interpretations (PatientMetrics.mk 30 72 110 70 100 170 70 22 0 0))[0]? =
        some (Interp.glucosePrediabetic 100) ∧
      "Prediabetic Glucose Level" ∈
        risk_factors (PatientMetrics.mk 30 72 110 70 100 170 70 22 0 0)) ∧
    (interpretations (PatientMetrics.mk 30 72 110 70 125 170 70 22 0 0))[0]? =
        some (Interp.glucosePrediabetic 125) ∧
    ((interpretations (PatientMetrics.mk 30 72 110 70 126 170 70 22 0 0))[0]? =
        some (Interp.glucoseDiabetic 126) ∧
      "High Glucose Level" ∈
        risk_factors (PatientMetrics.mk 30 72 110 70 126 170 70 22 0 0)) :=
  ⟨((C2_glucose_buckets _).1 (by decide)).1,
   (C2_glucose_buckets _).2.1 (by decide),
   ((C2_glucose_buckets _).2.1 (by decide)).1,
   (C2_glucose_buckets _).2.2.1 (by decide)⟩

/-- C3: For every BMI value the Interpreter assigns exactly one BMI bucket:
below 25 the normal statement and no BMI risk factor; in [25, 29.99] the
overweight statement plus "Overweight"; at or above 30 the obese statement
plus "Obesity (High BMI)". -/
theorem C3_bmi_buckets (p : PatientMetrics) :
    (p.bmi < 25 →
      (interpretations p)[1]? = some (Interp.bmiNormal p.bmi) ∧
        "Overweight" ∉ risk_factors p ∧
        "Obesity (High BMI)" ∉ risk_factors p) ∧
    (25 ≤ p.bmi ∧ p.bmi ≤ 29.99 →
      (interpretations p)[1]? = some (Interp.bmiOverweight p.bmi) ∧
        "Overweight" ∈ risk_factors p) ∧
    (30 ≤ p.bmi →
      (interpretations p)[1]? = some (Interp.bmiObese p.bmi) ∧
        "Obesity (High BMI)" ∈ risk_factors p) := by
  have h2999 : (29.99 : ℚ) < 30 := by norm_num
  refine ⟨fun h => ⟨?_, ?_, ?_⟩, fun h => ⟨?_, ?_⟩, fun h => ⟨?_, ?_⟩⟩
  · rw [interpretations_getElem_one]
    unfold bmiStmt
    rw [if_neg (by linarith), if_neg (by rintro ⟨h25, -⟩; linarith)]
  · rw [overweight_mem_iff]
    rintro ⟨h25, -⟩; linarith
  · rw [obesity_mem_iff]
    intro h30; linarith
  · rw [interpretations_getElem_one]
    unfold bmiStmt
    rw [if_neg (by linarith [h.2]), if_pos ⟨h.1, by linarith [h.2]⟩]
  · exact (overweight_mem_iff p).mpr ⟨h.1, by linarith [h.2]⟩
  · rw [interpretations_getElem_one]
    unfold bmiStmt
    rw [if_pos h]
  · exact (obesity_mem_iff p).mpr h

/-- C3 witness: the boundary BMI values 24.99, 25, 29.99 and 30 land in the
normal, overweight, overweight and obese buckets respectively. -/
theorem C3_bmi_buckets_witness :
    (interpretations (PatientMetrics.mk 30 72 110 70 90 170 70 (mkRat 2499 100) 0 0))[1]? =
        some (Interp.bmiNormal (mkRat 2499 100)) ∧
    ((interpretations (PatientMetrics.mk 30 72 110 70 90 170 70 25 0 0))[1]? =
        some (Interp.bmiOverweight 25) ∧
      "Overweight" ∈ risk_factors (PatientMetrics.mk 30 72 110 70 90 170 70 25 0 0)) ∧
    ((interpretations (PatientMetrics.mk 30 72 110 70 90 170 70 (mkRat 2999 100) 0 0))[1]? =
        some (Interp.bmiOverweight (mkRat 2999 100)) ∧
      "Overweight" ∈ risk_factors (PatientMetrics.mk 30 72 110 70 90 170 70 (mkRat 2999 100) 0 0)) ∧
    ((interpretations (PatientMetrics.mk 30 72 110 70 90 170 70 30 0 0))[1]? =
        some (Interp.bmiObese 30) ∧
      "Obesity (High BMI)" ∈ risk_factors (PatientMetrics.mk 30 72 110 70 90 170 70 30 0 0)) :=
  ⟨((C3_bmi_buckets _).1 (by norm_num [mkRat, Rat.normalize_eq])).1,
   (C3_bmi_buckets _).2.1 (by norm_num),
   (C3_bmi_buckets _).2.1 (by norm_num [mkRat, Rat.normalize_eq]),
   (C3_bmi_buckets _).2.2 (by norm_num)⟩

/-- C4: the risk-factor list is never empty; it is exactly the single
sentinel precisely when none of the five risk conditions holds (glucose
below 100, BMI below 25, systolic below 130 and diastolic below 80, age
below 45 and the hypertensive flag unset); and the sentinel appears in the
list only in that exact-singleton case. -/
theorem C4_sentinel (p : PatientMetrics) :
    risk_factors p ≠ [] ∧
    (risk_factors p = [no_risk_sentinel] ↔
      (p.glucose < 100 ∧ p.bmi < 25 ∧ p.systolic_bp < 130 ∧ p.diastolic_bp < 80 ∧
        p.age < 45 ∧ p.hypertensive ≠ 1)) ∧
    (no_risk_sentinel ∈ risk_factors p ↔ risk_factors p = [no_risk_sentinel]) := by
  refine ⟨risk_factors_ne_nil p,
    (risk_factors_eq_sentinel_iff p).trans (risks_raw_eq_nil_iff p), ?_⟩
  rw [risk_factors_eq]
  split_ifs with h
  · simp
  · constructor
    · intro hmem; exact absurd hmem (sentinel_not_mem_risks_raw p)
    · intro heq
      exact absurd (heq ▸ List.mem_singleton_self no_risk_sentinel)
        (sentinel_not_mem_risks_raw p)

/-- C4 witness: at glucose 90, BMI 22, blood pressure 110/70, age 30 and
hypertensive flag unset the risk-factor list is exactly the sentinel, and
it is never the empty list. -/
theorem C4_sentinel_witness :
    risk_factors (PatientMetrics.mk 30 72 110 70 90 170 70 22 0 0) =
      [no_risk_sentinel] ∧
    risk_factors (PatientMetrics.mk 30 72 110 70 90 170 70 22 0 0) ≠ [] :=
  ⟨(C4_sentinel _).2.1.mpr (by decide), (C4_sentinel _).1⟩

/-- C5: the statement sequence is exactly one statement each for Glucose,
BMI and Blood Pressure in that fixed order, followed by the Age statement
exactly when age >= 45 (with risk factor "Age over 45"); the hypertensive
flag produces no statement — the statement sequence does not depend on it —
only the risk factor "Existing Hypertension Diagnosis", appended last, when
it is set. -/
theorem C5_statement_order (p : PatientMetrics) :
    interpretations p =
      [glucoseStmt p.glucose, bmiStmt p.bmi, bpStmt p.systolic_bp p.diastolic_bp] ++
        (if 45 ≤ p.age then [Interp.ageOver45 p.age] else []) ∧
    ((interpretations p)[3]? = some (Interp.ageOver45 p.age) ↔ 45 ≤ p.age) ∧
    ("Age over 45" ∈ risk_factors p ↔ 45 ≤ p.age) ∧
    (∀ h : Int, interpretations { p with hypertensive := h } = interpretations p) ∧
    (p.hypertensive = 1 →
      (risk_factors p).getLast? = some "Existing Hypertension Diagnosis") ∧
    (p.hypertensive ≠ 1 → "Existing Hypertension Diagnosis" ∉ risk_factors p) := by
  refine ⟨interpretations_shape p, ?_, age_mem_iff p, ?_,
    risk_factors_getLast_hyper p, ?_⟩
  · rw [interpretations_shape]
    split_ifs with h
    · simp [h]
    · simp [h]
  · intro h
    rw [interpretations_shape, interpretations_shape]
  · intro h
    rw [hyper_mem_iff]
    exact h

/-- C5 witness: at age 44 no age statement or risk factor; at age 45 the
age statement appears fourth and "Age over 45" is emitted; with the
hypertensive flag set, "Existing Hypertension Diagnosis" is the last risk
factor. -/
theorem C5_statement_order_witness :
    interpretations (PatientMetrics.mk 44 72 110 70 90 170 70 22 0 0) =
      [Interp.glucoseNormal 90, Interp.bmiNormal 22, Interp.bpNormal 110 70] ∧
    interpretations (PatientMetrics.mk 45 72 110 70 90 170 70 22 0 0) =
      [Interp.glucoseNormal 90, Interp.bmiNormal 22, Interp.bpNormal 110 70,
        Interp.ageOver45 45] ∧
    ("Age over 45" ∈ risk_factors (PatientMetrics.mk 45 72 110 70 90 170 70 22 0 0)) ∧
    (risk_factors (PatientMetrics.mk 45 72 110 70 90 170 70 22 1 0)).getLast? =
      some "Existing Hypertension Diagnosis" := by
  refine ⟨?_, ?_, ((C5_statement_order _).2.2.1).mpr (by decide),
    (C5_statement_order _).2.2.2.2.1 (by decide)⟩
  · rw [(C5_statement_order _).1]; decide
  · rw [(C5_statement_order _).1]; decide

/-- C6: for every combination of metrics, prediction result, confidence
display, statement sequence and risk-factor sequence, the document laid
down by the ReportCompiler is exactly the seven sections Title, Metadata,
Patient Information, Prediction Result, Clinical Interpretation, Risk
Factors, Disclaimer, in that fixed order; `disclaimerSection` is a closed
constant, so the trailing section never depends on patient data — in
particular this holds when the risk-factor list is the single sentinel and
the confidence display is "N/A". -/
theorem C6_document_sections (p : PatientMetrics) (r : String) (c : ConfDisplay)
    (i : List Interp) (f : List String) (now : String) :
    create_pdf_report p r c i f now =
      titleSection ++ metadataSection now ++ patientInfoSection p ++
        predictionSection r c ++ clinicalSection i ++ riskSection f ++
        disclaimerSection :=
  create_pdf_report_sections p r c i f now

/-- C8: the ReportCompiler is deterministic — with a frozen timestamp two
invocations on the same inputs produce the identical document — and varying
only the timestamp changes exactly one rendered line: the documents have
the same length, agree at every index other than 4, index 4 holds the
timestamp cell, and for different timestamps the two documents differ at
index 4. -/
theorem C8_timestamp_isolation (p : PatientMetrics) (r : String) (c : ConfDisplay)
    (i : List Interp) (f : List String) (ts1 ts2 : String) :
    (create_pdf_report p r c i f ts1).length = (create_pdf_report p r c i f ts2).length ∧
    (ts1 = ts2 → create_pdf_report p r c i f ts1 = create_pdf_report p r c i f ts2) ∧
    (∀ k : Nat, k ≠ 4 →
      (create_pdf_report p r c i f ts1)[k]? = (create_pdf_report p r c i f ts2)[k]?) ∧
    (create_pdf_report p r c i f ts1)[4]? =
      some (PdfItem.cell ("Report generated on: " ++ ts1)) ∧
    (ts1 ≠ ts2 →
      (create_pdf_report p r c i f ts1)[4]? ≠ (create_pdf_report p r c i f ts2)[4]?) := by
  rw [create_pdf_report_timestamp_split p r c i f ts1,
    create_pdf_report_timestamp_split p r c i f ts2]
  refine ⟨by simp, fun h => by rw [h], ?_, by simp, ?_⟩
  · intro k hk
    match k, hk with
    | 0, _ => rfl
    | 1, _ => rfl
    | 2, _ => rfl
    | 3, _ => rfl
    | 4, hk => exact absurd rfl hk
    | (n + 5), _ => rfl
  · intro hne heq
    simp only [List.cons_append, List.nil_append, List.getElem?_cons_succ,
      List.getElem?_cons_zero, Option.some.injEq, PdfItem.cell.injEq] at heq
    exact hne (string_append_inj _ _ _ heq)

/-- C8 witness: on a concrete report, index 4 holds the timestamp cell;
for two distinct timestamps the documents differ at index 4 and agree at
index 5. -/
theorem C8_timestamp_isolation_witness :
    (create_pdf_report (PatientMetrics.mk 30 72 110 70 90 170 70 22 0 0)
        "Negative" .na [] [no_risk_sentinel] "2026-10-12 00:00:00")[4]? =
      some (PdfItem.cell ("Report generated on: " ++ "2026-10-12 00:00:00")) ∧
    "2026-10-12 00:00:00" ≠ "2026-10-13 09:30:00" ∧
    (create_pdf_report (PatientMetrics.mk 30 72 110 70 90 170 70 22 0 0)
        "Negative" .na [] [no_risk_sentinel] "2026-10-12 00:00:00")[4]? ≠
      (create_pdf_report (PatientMetrics.mk 30 72 110 70 90 170 70 22 0 0)
        "Negative" .na [] [no_risk_sentinel] "2026-10-13 09:30:00")[4]? ∧
    (5 : Nat) ≠ 4 ∧
    (create_pdf_report (PatientMetrics.mk 30 72 110 70 90 170 70 22 0 0)
        "Negative" .na [] [no_risk_sentinel] "2026-10-12 00:00:00")[5]? =
      (create_pdf_report (PatientMetrics.mk 30 72 110 70 90 170 70 22 0 0)
        "Negative" .na [] [no_risk_sentinel] "2026-10-13 09:30:00")[5]? :=
  ⟨(C8_timestamp_isolation _ _ _ _ _ _ "2026-10-13 09:30:00").2.2.2.1,
   by decide,
   (C8_timestamp_isolation _ _ _ _ _ _ _).2.2.2.2 (by decide),
   by decide,
   (C8_timestamp_isolation _ _ _ _ _ _ _).2.2.1 5 (by decide)⟩

/-- C9: every BMI value strictly between 29.99 and 30 is classified as
overweight; indeed the overweight bucket is exactly the half-open interval
[25, 30), closing the gap the "25-29.99" wording leaves. -/
theorem C9_bmi_gap (p : PatientMetrics) :
    (29.99 < p.bmi → p.bmi < 30 →
      (interpretations p)[1]? = some (Interp.bmiOverweight p.bmi) ∧
        "Overweight" ∈ risk_factors p) ∧
    ((interpretations p)[1]? = some (Interp.bmiOverweight p.bmi) ↔
      25 ≤ p.bmi ∧ p.bmi < 30) ∧
    ("Overweight" ∈ risk_factors p ↔ 25 ≤ p.bmi ∧ p.bmi < 30) := by
  have hq : (25 : ℚ) ≤ 29.99 := by norm_num
  have hiff : (interpretations p)[1]? = some (Interp.bmiOverweight p.bmi) ↔
      25 ≤ p.bmi ∧ p.bmi < 30 := by
    rw [interpretations_getElem_one]
    unfold bmiStmt
    split_ifs with h1 h2
    · simp only [Option.some.injEq]
      constructor
      · intro h; exact absurd h (by simp)
      · rintro ⟨-, h30⟩; exact absurd h1 (not_le.mpr h30)
    · simp [h2]
    · simp only [Option.some.injEq]
      constructor
      · intro h; exact absurd h (by simp)
      · intro hc; exact absurd hc h2
  refine ⟨fun hl hr => ?_, hiff, overweight_mem_iff p⟩
  have h25 : 25 ≤ p.bmi := le_trans hq (le_of_lt hl)
  exact ⟨hiff.mpr ⟨h25, hr⟩, (overweight_mem_iff p).mpr ⟨h25, hr⟩⟩

/-- C9 witness: the BMI value 29.995 = 5999/200 lies strictly between
29.99 and 30 and is classified as overweight with the "Overweight" risk
factor. -/
theorem C9_bmi_gap_witness :
    (29.99 : ℚ) < mkRat 5999 200 ∧ (mkRat 5999 200 : ℚ) < 30 ∧
    (interpretations (PatientMetrics.mk 30 72 110 70 90 170 70 (mkRat 5999 200) 0 0))[1]? =
      some (Interp.bmiOverweight (mkRat 5999 200)) ∧
    "Overweight" ∈
      risk_factors (PatientMetrics.mk 30 72 110 70 90 170 70 (mkRat 5999 200) 0 0) := by
  have h1 : (29.99 : ℚ) < mkRat 5999 200 := by norm_num [mkRat, Rat.normalize_eq]
  have h2 : (mkRat 5999 200 : ℚ) < 30 := by norm_num [mkRat, Rat.normalize_eq]
  exact ⟨h1, h2, ((C9_bmi_gap _).1 h1 h2).1, ((C9_bmi_gap _).1 h1 h2).2⟩

/-- C10: the confidence display is the probability of the predicted class:
for label 1 ("Positive") the positive-class probability itself, otherwise
("Negative") its complement 1 - p, each rendered as a two-decimal
percentage; when the model exposes no probability it is "N/A" for either
label. -/
theorem C10_confidence_predicted_class (prediction : Int) (proba : ℚ) :
    (prediction = 1 → confidence_display prediction (some proba) = .pct proba) ∧
    (prediction ≠ 1 → confidence_display prediction (some proba) = .pct (1 - proba)) ∧
    confidence_display prediction none = .na ∧
    (prediction_text prediction = "Positive" ↔ prediction = 1) := by
  refine ⟨fun h => ?_, fun h => ?_, ?_, ?_⟩
  · unfold confidence_display
    rw [if_pos h]
  · unfold confidence_display
    rw [if_neg h]
  · unfold confidence_display
    split_ifs <;> rfl
  · unfold prediction_text
    split_ifs with h
    · simp [h]
    · simp [h]

/-- C10 witness: with positive-class probability 17/20, label 1 displays
17/20 and label 0 displays 1 - 17/20; with no probability the display is
"N/A". -/
theorem C10_confidence_predicted_class_witness :
    confidence_display 1 (some (mkRat 17 20)) = .pct (mkRat 17 20) ∧
    confidence_display 0 (some (mkRat 17 20)) = .pct (1 - mkRat 17 20) ∧
    confidence_display 0 none = .na :=
  ⟨(C10_confidence_predicted_class 1 (mkRat 17 20)).1 rfl,
   (C10_confidence_predicted_class 0 (mkRat 17 20)).2.1 (by decide),
   (C10_confidence_predicted_class 0 0).2.2.1⟩

/-- C7 counterexample: a model failure and a rendering failure surface the
very same on-screen outcome — the single `except` handler of app.py lines
272-273 formats both as "An error occurred during prediction: {e}" — so
rendering failures are not reported distinctly from model errors. -/
theorem C7_counterexample :
    run_submission (PatientMetrics.mk 30 72 110 70 90 170 70 22 0 0)
        (.exc "boom") (fun _ => .ok [0]) "2026-10-12 00:00:00"
      = run_submission (PatientMetrics.mk 30 72 110 70 90 170 70 22 0 0)
        (.ok (1, none)) (fun _ => .exc "boom") "2026-10-12 00:00:00" := rfl

/-- C7 amended: every failure inside the submission block — model failure
or rendering failure alike — is surfaced as the same explicit error
message "An error occurred during prediction: {e}" (so rendering failures
are reported, but not distinctly from model errors), and no truncated
stream is produced: the report display carries a byte stream exactly when
the serialisation of the full seven-section document succeeded, and it
carries precisely that serialisation's output. -/
theorem C7_error_surfacing (p : PatientMetrics)
    (model_outcome : StepResult (Int × Option ℚ))
    (serialize : List PdfItem → StepResult (List Nat)) (now : String) :
    (∀ e, model_outcome = .exc e →
      run_submission p model_outcome serialize now =
        .errorMessage ("An error occurred during prediction: " ++ e)) ∧
    (∀ prediction proba e, model_outcome = .ok (prediction, proba) →
      serialize (create_pdf_report p (prediction_text prediction)
          (confidence_display prediction proba) (interpretations p)
          (risk_factors p) now) = .exc e →
      run_submission p model_outcome serialize now =
        .errorMessage ("An error occurred during prediction: " ++ e)) ∧
    (∀ prediction proba bs, model_outcome = .ok (prediction, proba) →
      serialize (create_pdf_report p (prediction_text prediction)
          (confidence_display prediction proba) (interpretations p)
          (risk_factors p) now) = .ok bs →
      run_submission p model_outcome serialize now =
        .report (prediction_text prediction) (confidence_display prediction proba) bs) := by
  refine ⟨?_, ?_, ?_⟩
  · rintro e rfl
    rfl
  · rintro prediction proba e rfl hs
    rw [run_submission_ok, hs]
  · rintro prediction proba bs rfl hs
    rw [run_submission_ok, hs]

/-- C7 amended witness: a rendering failure "render failed" surfaces the
explicit generic error message, and a successful serialisation surfaces the
report with exactly the serialiser's bytes. -/
theorem C7_error_surfacing_witness :
    run_submission (PatientMetrics.mk 30 72 110 70 90 170 70 22 0 0)
        (.ok (0, none)) (fun _ => .exc "render failed") "2026-10-12 00:00:00"
      = .errorMessage ("An error occurred during prediction: " ++ "render failed") ∧
    run_submission (PatientMetrics.mk 30 72 110 70 90 170 70 22 0 0)
        (.ok (0, none)) (fun _ => .ok [37, 80, 68, 70]) "2026-10-12 00:00:00"
      = .report (prediction_text 0) (confidence_display 0 none) [37, 80, 68, 70] :=
  ⟨(C7_error_surfacing _ _ _ _).2.1 0 none "render failed" rfl rfl,
   (C7_error_surfacing _ _ _ _).2.2 0 none [37, 80, 68, 70] rfl rfl⟩

end DiabetesPrediction
